import Mathlib

/-!
Verification development for the voice-platform per-call session engine.

The definitions below are a shallow embedding of the TypeScript sources:
`VoiceSession` (src/unnamed/part_008), `ToolExecutor` (same file) and the
shared `CallStatus` type (src/unnamed/part_000).  Mutable class fields become
a `Session` record; each method becomes a function
`Session → Session × List Effect` where `Effect` records the externally
observable actions (socket sends, database writes, file writes, timers).
JavaScript numbers are modelled as exact `Nat`/`Int`/`ℚ` arithmetic;
millisecond clock reads (`Date.now()`) are a `now : Nat` parameter; the
STT/LLM/TTS/tool-server network calls are oracle inputs gathered in `Env`.
A JavaScript exception that aborts a handler is modelled by returning the
state as mutated up to the throw point (the socket message handler catches
and only logs, so nothing is rolled back).
-/

namespace VoicePlatform

/-- A binary audio buffer: a list of bytes (each `< 256` in intent). -/
abbrev Frame := List Nat

/-- The session state field: `'idle' | 'listening' | 'thinking' | 'speaking'`. -/
inductive SState where
  | idle
  | listening
  | thinking
  | speaking
deriving DecidableEq

/-- One entry of `this.messages` in `VoiceSession`. -/
structure Message where
  role : String
  content : String
  toolCallId : Option String
deriving DecidableEq

/-- The `data` argument of a `prisma.call.update` issued by the session.
Only the fields the session actually writes are modelled; `none` means the
field is absent from the update object. -/
structure CallUpdate where
  status : Option String := none
  startedAt : Option Nat := none
  endedReason : Option String := none
  endedAt : Option Nat := none
  durationSeconds : Option Nat := none
  costCents : Option Int := none
  recordingUrl : Option String := none
  stereoRecordingUrl : Option String := none
deriving DecidableEq

/-- A `prisma.callMessage.create` row (latency columns omitted: no claim
reads them). -/
structure CallMessageRow where
  role : String
  content : String
  timestampMs : Nat
  toolName : Option String
deriving DecidableEq

/-- Payload of a server event, restricted to the fields the claims inspect. -/
inductive EvData where
  | empty
  | text (t : String)
  | ended (reason : String) (duration : Nat)
  | transferStarted (destination : Option String)
  | toolCalled (name : String)
  | toolResult (name : String)
  | interrupted
  | callStarted (callId : String) (assistantName : String)
deriving DecidableEq

/-- An externally observable action of the session. -/
inductive Effect where
  /-- `sendEvent(type, data)` → `socket.send(JSON.stringify(event))`. -/
  | event (type : String) (data : EvData)
  /-- `sendAudio` → `socket.send(audio)` (binary frame). -/
  | audio (frame : Frame)
  | dbCallUpdate (u : CallUpdate)
  | dbMessageCreate (m : CallMessageRow)
  | fileWrite (name : String) (blob : Frame)
  /-- `setTimeout(..., delay)` scheduling the playback-completion callback
  that was closed over synthesis id `sid`. -/
  | timerSet (delay : Nat) (sid : Nat)
  | socketClose
deriving DecidableEq

/-- The assistant configuration fields read by the session engine, plus the
two declared fields (`firstMessageMode`, `maxCallDurationSeconds`) whose
handling the claims are about (shared type `AssistantConfig`,
src/unnamed/part_000). -/
structure Assistant where
  name : String
  systemPrompt : String
  firstMessage : Option String
  firstMessageMode : String
  interruptionEnabled : Bool
  silenceTimeoutMs : Nat
  maxCallDurationSeconds : Nat
deriving DecidableEq

/-- The mutable per-call state of `VoiceSession`.  `socketOpen` models
`this.socket.readyState === WebSocket.OPEN`.  `silenceStart = 0` is the
sentinel the source uses for "no silence onset recorded". -/
structure Session where
  callId : String
  state : SState
  isEnded : Bool
  currentSynthesisId : Nat
  isSpeaking : Bool
  silenceStart : Nat
  startTime : Nat
  audioBuffer : List Frame
  userAudioChunks : List Frame
  assistantAudioChunks : List Frame
  messages : List Message
  socketOpen : Bool
deriving DecidableEq

/-- One tool call returned by the LLM.  Argument values are modelled as
strings (the claims only inspect string-valued arguments). -/
structure ToolCall where
  id : String
  name : String
  args : List (String × String)
deriving DecidableEq

/-- The LLM adapter's response; an absent `toolCalls` is the empty list. -/
structure LLMResponse where
  content : String
  toolCalls : List ToolCall
deriving DecidableEq

/-- Oracle for the external provider calls made during one user turn.
`llm` lists the successive outcomes of `this.llm.generate` (the tool loop
re-invokes it); an exhausted list is treated as a failed call.  `toolRes`
gives `JSON.stringify(result)` of `toolExecutor.execute` for tool calls that
reach the generic branch. -/
structure Env where
  stt : Except String String
  llm : List (Except String LLMResponse)
  tts : Except String Frame
  toolRes : ToolCall → String

/-- Decidable equality for `Except` outcomes (not provided by core). -/
instance {e a : Type} [DecidableEq e] [DecidableEq a] :
    DecidableEq (Except e a) := fun x y =>
  match x, y with
  | Except.error i, Except.error j =>
    if h : i = j then isTrue (by rw [h])
    else isFalse (fun hh => by injection hh with hv; exact h hv)
  | Except.error _, Except.ok _ => isFalse (fun hh => Except.noConfusion hh)
  | Except.ok _, Except.error _ => isFalse (fun hh => Except.noConfusion hh)
  | Except.ok u, Except.ok v =>
    if h : u = v then isTrue (by rw [h])
    else isFalse (fun hh => by injection hh with hv; exact h hv)

/- ### Voice activity detection (`VoiceSession.detectVoiceActivity`) -/

/-- `buf.readInt16LE(i)` for two in-range bytes: little-endian, signed. -/
def int16OfBytes (lo hi : Nat) : Int :=
  let u := lo % 256 + 256 * (hi % 256)
  if u < 32768 then (u : Int) else (u : Int) - 65536

/-- The loop `for (i = 0; i < audio.length; i += 2) sum += |readInt16LE(i)|`,
carried out two bytes at a time; `i` is the byte offset of the next read.
A singleton tail means `readInt16LE` is asked for offset `i` with only one
byte left, which raises `ERR_OUT_OF_RANGE`; the error value is the
offending byte offset. -/
def vadLoop : List Nat → Nat → Except Nat Nat
  | [], _ => Except.ok 0
  | [_], i => Except.error i
  | lo :: hi :: rest, i =>
    match vadLoop rest (i + 2) with
    | Except.ok s => Except.ok (s + (int16OfBytes lo hi).natAbs)
    | Except.error e => Except.error e

/-- `detectVoiceActivity`: mean absolute sample amplitude compared against
the fixed threshold 200.  JavaScript evaluates `sum / (length / 2) > 200`
in exact double arithmetic at these magnitudes; the comparison is stated
here in the equivalent integer form `2·sum > 200·length`, which agrees
with the source's division on every length the comparison is reached at
(even lengths — an odd length raises before comparing; a zero length
compares `NaN > 200`, i.e. false, and `0 > 0` is false too).  An
out-of-range read propagates as `Except.error` with the offending byte
offset. -/
def detectVoiceActivity (audio : List Nat) : Except Nat Bool :=
  match vadLoop audio 0 with
  | Except.error i => Except.error i
  | Except.ok sum =>
    Except.ok (decide (2 * sum > 200 * audio.length))

/- ### Primitive session operations -/

/-- `sendAudio(audio)`: returns without sending when the socket is not
open; otherwise pushes the buffer onto `assistantAudioChunks` and then
sends it as a binary frame.  (The push precedes `socket.send`, so it
happens even if the send would throw.) -/
def sendAudio (s : Session) (audio : Frame) : Session × List Effect :=
  if s.socketOpen then
    ({ s with assistantAudioChunks := s.assistantAudioChunks ++ [audio] },
      [Effect.audio audio])
  else
    (s, [])

/-- `handleInterrupt()`: a no-op unless `state === 'speaking'`; otherwise
increments `currentSynthesisId`, transitions to listening, emits
`assistant.interrupted { clearAudio: true, reason: 'user-speech' }` and
clears the input buffer. -/
def handleInterrupt (s : Session) : Session × List Effect :=
  if s.state = SState.speaking then
    ({ s with currentSynthesisId := s.currentSynthesisId + 1,
              state := SState.listening,
              audioBuffer := [] },
      [Effect.event "assistant.interrupted" EvData.interrupted])
  else
    (s, [])

/-- The synchronous prefix of `synthesizeAndPlay`: set `state = 'speaking'`
and capture `synthesisId = ++this.currentSynthesisId`.  The TTS HTTP call
is awaited next, so the rest of the method is `synthesizeAndPlayResume`. -/
def synthesizeAndPlayStart (s : Session) : Session × Nat :=
  ({ s with state := SState.speaking,
            currentSynthesisId := s.currentSynthesisId + 1 },
    s.currentSynthesisId + 1)

/-- The continuation of `synthesizeAndPlay` once `tts.synthesize` settles,
applied to whatever session state holds at that moment.  On success: if
interrupted (`state ≠ 'speaking'` or the captured id is no longer current)
the audio is discarded; otherwise emit `assistant.speaking`, send the audio
(which also records it), push it onto `assistantAudioChunks` a second time,
and schedule the playback timer `max(500, ⌊bytes/48⌋ + 200)` ms out.  On a
TTS error: if still current, return to listening and emit
`assistant.audio.done`. -/
def synthesizeAndPlayResume (s : Session) (sid : Nat)
    (tts : Except String Frame) : Session × List Effect :=
  match tts with
  | Except.error _ =>
    if s.state = SState.speaking ∧ s.currentSynthesisId = sid then
      ({ s with state := SState.listening },
        [Effect.event "assistant.audio.done" EvData.empty])
    else
      (s, [])
  | Except.ok audioBuffer =>
    if s.state ≠ SState.speaking ∨ s.currentSynthesisId ≠ sid then
      (s, [])
    else
      let p := sendAudio s audioBuffer
      let s2 := { p.1 with
        assistantAudioChunks := p.1.assistantAudioChunks ++ [audioBuffer] }
      let playbackDelay := max 500 (audioBuffer.length / 48 + 200)
      (s2, Effect.event "assistant.speaking" EvData.empty ::
        p.2 ++ [Effect.timerSet playbackDelay sid])

/-- The `setTimeout` callback scheduled by `synthesizeAndPlay`: if the
session is still speaking and synthesis `sid` is still current, transition
to listening, clear `isSpeaking` and the input buffer and emit
`assistant.audio.done`. -/
def playbackTimerFire (s : Session) (sid : Nat) : Session × List Effect :=
  if s.state = SState.speaking ∧ s.currentSynthesisId = sid then
    ({ s with state := SState.listening, isSpeaking := false,
              audioBuffer := [] },
      [Effect.event "assistant.audio.done" EvData.empty])
  else
    (s, [])

/- ### Tool executor (`ToolExecutor`, src/unnamed/part_008) -/

/-- A JSON-schema parameters object, reduced to what the claims inspect:
the property names (with their description strings) and the `required`
list. -/
structure ToolParams where
  properties : List (String × String)
  required : List String
deriving DecidableEq

/-- A caller-supplied function definition (`tool.functionDefinition`). -/
structure FuncDef where
  name : String
  description : String
  parameters : ToolParams
deriving DecidableEq

/-- A configured tool row as handed to the `ToolExecutor` constructor. -/
structure Tool where
  id : String
  name : String
  type : String
  description : Option String
  functionDefinition : Option FuncDef
  serverUrl : Option String
deriving DecidableEq

/-- A projected tool definition handed to the LLM. -/
structure ToolDefinition where
  name : String
  description : String
  parameters : ToolParams
deriving DecidableEq

/-- `ToolExecutor.getToolDefinitions()`: project each configured tool into
a JSON-schema descriptor.  The `Map` the executor iterates preserves
insertion order, so a list fold is faithful. -/
def getToolDefinitions (tools : List Tool) : List ToolDefinition :=
  tools.foldr (fun tool acc =>
    if tool.type = "function" then
      match tool.functionDefinition with
      | some fd => ToolDefinition.mk fd.name fd.description fd.parameters :: acc
      | none => acc
    else if tool.type = "transfer" then
      ToolDefinition.mk "transferCall"
        (tool.description.getD "Transfer the call to another person or department")
        (ToolParams.mk
          [("reason", "Reason for the transfer"),
           ("destination", "Who or where to transfer to")]
          ["destination"]) :: acc
    else if tool.type = "endCall" then
      ToolDefinition.mk "endCall"
        "End the call when the conversation is complete"
        (ToolParams.mk [("reason", "Reason for ending the call")] []) :: acc
    else if tool.type = "query" then
      ToolDefinition.mk ("queryKnowledge_" ++ tool.id)
        (tool.description.getD "Search the knowledge base for information")
        (ToolParams.mk [("query", "The search query")] ["query"]) :: acc
    else if tool.type = "dtmf" then
      ToolDefinition.mk "pressDigits"
        "Press phone keypad digits (DTMF tones)"
        (ToolParams.mk [("digits", "The digits to press (0-9, *, #)")]
          ["digits"]) :: acc
    else acc) []

/- ### Persistence helpers -/

/-- `saveMessage`: one `prisma.callMessage.create` effect.  `timestampMs`
is `Date.now() - this.startTime` at the call site. -/
def saveMessage (role content : String) (timestampMs : Nat)
    (toolName : Option String) : Effect :=
  Effect.dbMessageCreate (CallMessageRow.mk role content timestampMs toolName)

/-- `Math.round` on a non-negative JavaScript number, on exact rationals. -/
def jsRound (q : ℚ) : Int := ⌊q + 1 / 2⌋

/-- Cost breakdown in cents, `{stt, llm, tts, total}`. -/
structure CostBreakdown where
  stt : Int
  llm : Int
  tts : Int
  total : Int
deriving DecidableEq

/-- `calculateCosts(durationSeconds)`: `minutes = duration / 60`;
`stt = round(minutes · 0.6)`, `llm = tts = round(minutes · 1.5)`,
`total = stt + llm + tts`.  JavaScript computes this in doubles; the
embedding uses exact rationals (the magnitudes involved are represented
exactly in doubles apart from the final division, whose rounding cannot
cross the half-integer rounding boundaries for realistic durations). -/
def calculateCosts (durationSeconds : Nat) : CostBreakdown :=
  let minutes : ℚ := (durationSeconds : ℚ) / 60
  let sttCost := jsRound (minutes * (6 / 10))
  let llmCost := jsRound (minutes * (15 / 10))
  let ttsCost := jsRound (minutes * (15 / 10))
  CostBreakdown.mk sttCost llmCost ttsCost (sttCost + llmCost + ttsCost)

/-- `saveRecording()`: write the concatenated user chunks and assistant
chunks (each only when non-empty) to `{callId}-user.pcm` /
`{callId}-assistant.pcm`, then update the Call row with the recording
URLs. -/
def saveRecording (s : Session) : List Effect :=
  (if s.userAudioChunks ≠ [] then
    [Effect.fileWrite (s.callId ++ "-user.pcm") s.userAudioChunks.flatten]
  else []) ++
  (if s.assistantAudioChunks ≠ [] then
    [Effect.fileWrite (s.callId ++ "-assistant.pcm")
      s.assistantAudioChunks.flatten]
  else []) ++
  [Effect.dbCallUpdate
    { recordingUrl := some ("/recordings/" ++ s.callId ++ "-user.pcm"),
      stereoRecordingUrl :=
        some ("/recordings/" ++ s.callId ++ "-assistant.pcm") }]

/-- `end(reason)`: guarded by `isEnded`.  On the first invocation: set the
flag, finalise the Call row (status `'completed'`, ended reason/time,
duration, cost), emit `call.ended`, flush recordings, close the socket
(and fire the registry/end callbacks, which carry no modelled effect). -/
def endSession (now : Nat) (reason : String) (s : Session) :
    Session × List Effect :=
  if s.isEnded then
    (s, [])
  else
    let duration := (now - s.startTime) / 1000
    let cb := calculateCosts duration
    let s1 := { s with isEnded := true, socketOpen := false }
    (s1,
      Effect.dbCallUpdate
        { status := some "completed", endedReason := some reason,
          endedAt := some now, durationSeconds := some duration,
          costCents := some cb.total } ::
      Effect.event "call.ended" (EvData.ended reason duration) ::
      saveRecording { s with isEnded := true } ++ [Effect.socketClose])

/- ### The turn pipeline -/

/-- `handleToolCall(toolCall)`: emit `tool.called`; `endCall` ends the
session with reason `'assistant-ended'`; `transferCall` emits
`transfer.started { destination: toolCall.arguments.number }` — note the
source reads the argument named `number`, not the schema's required
`destination`; any other name is executed through the tool executor, the
result emitted as `tool.result`, appended to the history as a `tool`
message and persisted. -/
def handleToolCall (env : Env) (now : Nat) (s : Session) (tc : ToolCall) :
    Session × List Effect :=
  let called := Effect.event "tool.called" (EvData.toolCalled tc.name)
  if tc.name = "endCall" then
    let p := endSession now "assistant-ended" s
    (p.1, called :: p.2)
  else if tc.name = "transferCall" then
    (s, [called,
      Effect.event "transfer.started"
        (EvData.transferStarted (List.lookup "number" tc.args))])
  else
    let content := env.toolRes tc
    let s1 := { s with
      messages := s.messages ++ [Message.mk "tool" content (some tc.id)] }
    (s1, [called,
      Effect.event "tool.result" (EvData.toolResult tc.name),
      saveMessage "tool" content (now - s.startTime) (some tc.name)])

/-- The `for (const toolCall of response.toolCalls)` loop. -/
def handleToolCalls (env : Env) (now : Nat) (s : Session)
    (tcs : List ToolCall) : Session × List Effect :=
  match tcs with
  | [] => (s, [])
  | tc :: rest =>
    let p := handleToolCall env now s tc
    let q := handleToolCalls env now p.1 rest
    (q.1, p.2 ++ q.2)

/-- `generateResponse()`, driven by the list of successive LLM outcomes.
A thrown LLM error (or an exhausted outcome list) is caught: log, return
to listening, emit `assistant.audio.done`.  A response with tool calls
runs the tool loop and recurses so the LLM sees the tool outputs.  A
response with non-empty content is appended to the history, emitted,
persisted and synthesized (`synthesizeAndPlay`, whose TTS await resumes
against the state the pipeline reaches — within this serialized turn, the
state just produced). -/
def generateResponse (env : Env) (now : Nat) (s : Session) :
    List (Except String LLMResponse) → Session × List Effect
  | [] =>
    ({ s with state := SState.listening },
      [Effect.event "assistant.audio.done" EvData.empty])
  | Except.error _ :: _ =>
    ({ s with state := SState.listening },
      [Effect.event "assistant.audio.done" EvData.empty])
  | Except.ok r :: restLlm =>
    if r.toolCalls ≠ [] then
      let p := handleToolCalls env now s r.toolCalls
      let q := generateResponse env now p.1 restLlm
      (q.1, p.2 ++ q.2)
    else if r.content ≠ "" then
      let s1 := { s with
        messages := s.messages ++ [Message.mk "assistant" r.content none] }
      let p := synthesizeAndPlayStart s1
      let q := synthesizeAndPlayResume p.1 p.2 env.tts
      (q.1,
        Effect.event "assistant.message" (EvData.text r.content) ::
        saveMessage "assistant" r.content (now - s.startTime) none ::
        q.2)
    else
      (s, [])

/-- `processUserSpeech()`: a no-op on an empty input buffer; otherwise take
ownership of the buffer, emit `assistant.thinking`, set state `'thinking'`
and transcribe.  A thrown STT error is caught: log and return to
listening.  An empty transcript returns to listening.  Otherwise emit
`transcript.final`, append the user message, persist it and generate a
response. -/
def processUserSpeech (env : Env) (now : Nat) (s : Session) :
    Session × List Effect :=
  if s.audioBuffer = [] then
    (s, [])
  else
    let s1 := { s with audioBuffer := [], state := SState.thinking }
    let thinking := Effect.event "assistant.thinking" EvData.empty
    match env.stt with
    | Except.error _ =>
      ({ s1 with state := SState.listening }, [thinking])
    | Except.ok transcript =>
      if transcript.trim = "" then
        ({ s1 with state := SState.listening }, [thinking])
      else
        let s2 := { s1 with
          messages := s1.messages ++ [Message.mk "user" transcript none] }
        let q := generateResponse env now s2 env.llm
        (q.1,
          thinking ::
          Effect.event "transcript.final" (EvData.text transcript) ::
          saveMessage "user" transcript (now - s.startTime) none ::
          q.2)

/-- `handleAudioData(data)` including the enclosing socket-message
try/catch (the catch only logs, so an out-of-range throw from the VAD
leaves every mutation made before the throw in place and produces no
further effects).  The unconditional `state = 'listening'` written in the
voiced branch is the net effect of the source's
`if (state !== 'listening') state = 'listening'`. -/
def handleAudioData (a : Assistant) (env : Env) (now : Nat) (s : Session)
    (data : Frame) : Session × List Effect :=
  if s.isEnded then
    (s, [])
  else
    let s0 := { s with userAudioChunks := s.userAudioChunks ++ [data] }
    if s0.state = SState.speaking ∧ a.interruptionEnabled then
      match detectVoiceActivity data with
      | Except.error _ => (s0, [])
      | Except.ok hasVoice =>
        if hasVoice then
          let p := handleInterrupt s0
          ({ p.1 with audioBuffer := p.1.audioBuffer ++ [data],
                      isSpeaking := true, silenceStart := 0 },
            p.2 ++ [Effect.event "speech.started" EvData.empty])
        else
          (s0, [])
    else
      let s1 := { s0 with audioBuffer := s0.audioBuffer ++ [data] }
      match detectVoiceActivity data with
      | Except.error _ => (s1, [])
      | Except.ok hasVoice =>
        if hasVoice then
          let started :=
            if s1.isSpeaking then []
            else [Effect.event "speech.started" EvData.empty]
          ({ s1 with isSpeaking := true, silenceStart := 0,
                     state := SState.listening },
            started)
        else if s1.isSpeaking then
          let onset := if s1.silenceStart = 0 then now else s1.silenceStart
          let s2 := { s1 with silenceStart := onset }
          let silenceTimeout := min a.silenceTimeoutMs 1200
          if now - onset > silenceTimeout then
            let q := processUserSpeech env now { s2 with isSpeaking := false }
            (q.1, Effect.event "speech.ended" EvData.empty :: q.2)
          else
            (s2, [])
        else
          (s1, [])

/- ### Session start and control -/

/-- The `prisma.call.update` issued at the top of `start()`. -/
def startCallUpdate (now : Nat) : CallUpdate :=
  { status := some "active", startedAt := some now }

/-- `start()` up to `await sessionPromise`: set `startTime`, emit
`call.started`, mark the Call row, install socket handlers (no modelled
effect), transition to listening, and — whenever `firstMessage` is
configured, with no consultation of `firstMessageMode` — append the
assistant message, emit `assistant.message`, persist it with
`timestampMs: 0` and synthesize-and-play it. -/
def start (a : Assistant) (env : Env) (now : Nat) (s : Session) :
    Session × List Effect :=
  let s0 := { s with startTime := now }
  let pre :=
    [Effect.event "call.started" (EvData.callStarted s.callId a.name),
     Effect.dbCallUpdate (startCallUpdate now)]
  let s1 := { s0 with state := SState.listening }
  match a.firstMessage with
  | none => (s1, pre)
  | some fm =>
    let s2 := { s1 with
      messages := s1.messages ++ [Message.mk "assistant" fm none] }
    let p := synthesizeAndPlayStart s2
    let q := synthesizeAndPlayResume p.1 p.2 env.tts
    (q.1,
      pre ++
      Effect.event "assistant.message" (EvData.text fm) ::
      saveMessage "assistant" fm 0 none ::
      q.2)

/-- The socket `'close'` handler: `if (!isEnded) end('client-disconnect')`
(the guard is also the first line of `end`, so the composition equals a
plain `end`). -/
def onSocketClose (now : Nat) (s : Session) : Session × List Effect :=
  if s.isEnded then (s, []) else endSession now "client-disconnect" s

/-- A control (text) frame: `end` → `end('client-request')`; `interrupt` →
`handleInterrupt()`; `config` and anything else → no-op. -/
def handleControlMessage (now : Nat) (s : Session) (msgType : String) :
    Session × List Effect :=
  if msgType = "end" then endSession now "client-request" s
  else if msgType = "interrupt" then handleInterrupt s
  else (s, [])

/-- Repeated invocation of `end` with a list of reasons (for the
idempotence claim). -/
def endMany (now : Nat) (reasons : List String) (s : Session) :
    Session × List Effect :=
  match reasons with
  | [] => (s, [])
  | r :: rest =>
    let p := endSession now r s
    let q := endMany now rest p.1
    (q.1, p.2 ++ q.2)

/- ### The operations of the engine as one step relation -/

/-- Every atomic segment of session code that the engine can run (the
pieces between `await`s of external calls, composed where the source
composes them).  The `end` reasons are exactly the literals at the call
sites: `'client-request'` and `'client-disconnect'` (socket handlers),
`'assistant-ended'` (endCall tool, inside the audio pipeline),
`'api-request'` (POST /sessions/:callId/end) and `'server-shutdown'`
(SIGINT/SIGTERM), all in src/unnamed/part_008 and part_009. -/
inductive OpStep : Session → Session → List Effect → Prop where
  | audioFrame (a : Assistant) (env : Env) (now : Nat) (s : Session)
      (data : Frame) :
      OpStep s (handleAudioData a env now s data).1
        (handleAudioData a env now s data).2
  | control (now : Nat) (s : Session) (msgType : String) :
      OpStep s (handleControlMessage now s msgType).1
        (handleControlMessage now s msgType).2
  | socketClosed (now : Nat) (s : Session) :
      OpStep s (onSocketClose now s).1 (onSocketClose now s).2
  | apiEnd (now : Nat) (s : Session) :
      OpStep s (endSession now "api-request" s).1
        (endSession now "api-request" s).2
  | shutdown (now : Nat) (s : Session) :
      OpStep s (endSession now "server-shutdown" s).1
        (endSession now "server-shutdown" s).2
  | startOp (a : Assistant) (env : Env) (now : Nat) (s : Session) :
      OpStep s (start a env now s).1 (start a env now s).2
  | synthResume (s : Session) (sid : Nat) (tts : Except String Frame) :
      OpStep s (synthesizeAndPlayResume s sid tts).1
        (synthesizeAndPlayResume s sid tts).2
  | timerFire (s : Session) (sid : Nat) :
      OpStep s (playbackTimerFire s sid).1 (playbackTimerFire s sid).2
  | speechProcess (env : Env) (now : Nat) (s : Session) :
      OpStep s (processUserSpeech env now s).1
        (processUserSpeech env now s).2

/- ### Derived observables and sample inputs -/

/-- The end reasons the engine ever passes to `end`, read off the call
sites (part_008 lines 603, 615, 819; part_009 lines 177, 203). -/
def engineEndReasons : List String :=
  ["client-request", "client-disconnect", "assistant-ended",
   "api-request", "server-shutdown"]

/-- The declared `CallStatus` union (src/unnamed/part_000 line 38). -/
def callStatuses : List String :=
  ["queued", "ringing", "in-progress", "completed", "failed",
   "no-answer", "busy"]

/-- `true` unless the effect is a `call.ended` event whose reason lies
outside `engineEndReasons`. -/
def effectEndedOk (e : Effect) : Bool :=
  match e with
  | Effect.event "call.ended" (EvData.ended r _) => engineEndReasons.contains r
  | _ => true

/-- Every `call.ended` event in the trace carries an engine end reason. -/
def reasonsOk (tr : List Effect) : Bool := tr.all effectEndedOk

/-- Number of `call.ended` events in a trace. -/
def countCallEnded (tr : List Effect) : Nat :=
  tr.countP fun e =>
    match e with
    | Effect.event "call.ended" _ => true
    | _ => false

/-- Number of Call-row finalisation writes (the update carrying
`endedReason`) in a trace. -/
def countFinalize (tr : List Effect) : Nat :=
  tr.countP fun e =>
    match e with
    | Effect.dbCallUpdate u => u.endedReason.isSome
    | _ => false

/-- Number of recording flushes in a trace, witnessed by the recording-URL
update that `saveRecording` performs unconditionally. -/
def countRecordingFlush (tr : List Effect) : Nat :=
  tr.countP fun e =>
    match e with
    | Effect.dbCallUpdate u => u.recordingUrl.isSome
    | _ => false

/-- Number of persisted `CallMessage` rows with the given role. -/
def countMessageRows (role : String) (tr : List Effect) : Nat :=
  tr.countP fun e =>
    match e with
    | Effect.dbMessageCreate m => m.role = role
    | _ => false

/-- The event type strings of a trace, in order. -/
def eventTypes (tr : List Effect) : List String :=
  tr.filterMap fun e =>
    match e with
    | Effect.event t _ => some t
    | _ => none

/-- The little-endian 16-bit samples of a byte buffer, dropping a trailing
odd byte (the reference decoding the VAD loop is measured against). -/
def int16Samples : List Nat → List Int
  | [] => []
  | [_] => []
  | lo :: hi :: rest => int16OfBytes lo hi :: int16Samples rest

/-- Sum of absolute sample values. -/
def sampleAbsSum (b : List Nat) : Nat :=
  ((int16Samples b).map Int.natAbs).sum

/-- Mean absolute sample amplitude as an exact rational (`0` for an empty
sample list). -/
def meanAbsAmplitude (b : List Nat) : ℚ :=
  (sampleAbsSum b : ℚ) / ((int16Samples b).length : ℚ)

/-- A fresh per-call session state as the WebSocket route constructs it. -/
def sampleSession : Session :=
  { callId := "call-1", state := SState.idle, isEnded := false,
    currentSynthesisId := 0, isSpeaking := false, silenceStart := 0,
    startTime := 0, audioBuffer := [], userAudioChunks := [],
    assistantAudioChunks := [],
    messages := [Message.mk "system" "You are a helpful assistant." none],
    socketOpen := true }

/-- A sample assistant configuration. -/
def sampleAssistant : Assistant :=
  { name := "Riley", systemPrompt := "You are a helpful assistant.",
    firstMessage := some "Hello.",
    firstMessageMode := "assistant-waits-for-user",
    interruptionEnabled := true, silenceTimeoutMs := 3000,
    maxCallDurationSeconds := 60 }

/-- A session mid-utterance: listening, user speaking, silence onset at
t = 500 ms. -/
def listeningSession : Session :=
  { sampleSession with
    state := SState.listening, isSpeaking := true, silenceStart := 500 }

/-- A session in the middle of an uninterrupted synthesis, socket open. -/
def speakingOpenSession : Session :=
  { sampleSession with
    state := SState.speaking, currentSynthesisId := 3 }

/-- The same speaking session after its socket stopped being open. -/
def speakingClosedSession : Session :=
  { sampleSession with
    state := SState.speaking, currentSynthesisId := 3, socketOpen := false }

/-- A benign provider oracle. -/
def sampleEnv : Env :=
  { stt := Except.ok "hi", llm := [Except.ok (LLMResponse.mk "" [])],
    tts := Except.ok [0, 0], toolRes := fun _ => "{}" }

/-- A provider oracle whose STT call fails (e.g. a 500 from Deepgram). -/
def sttFailEnv : Env :=
  { stt := Except.error "Deepgram error: 500",
    llm := [Except.ok (LLMResponse.mk "" [])],
    tts := Except.ok [0, 0], toolRes := fun _ => "{}" }

/-- A configured transfer tool row. -/
def transferTool : Tool :=
  { id := "t1", name := "frontDesk", type := "transfer",
    description := none, functionDefinition := none, serverUrl := none }

/-- The LLM tool call of seed scenario 3: `transferCall` with the required
`destination` argument. -/
def transferCallTc : ToolCall :=
  { id := "tc1", name := "transferCall",
    args := [("destination", "+15551234")] }

/- ### Helper lemmas: `currentSynthesisId` across the operations -/

theorem sendAudio_synthId (s : Session) (f : Frame) :
    (sendAudio s f).1.currentSynthesisId = s.currentSynthesisId := by
  unfold sendAudio; split <;> rfl

theorem handleInterrupt_synthId_le (s : Session) :
    s.currentSynthesisId ≤ (handleInterrupt s).1.currentSynthesisId := by
  unfold handleInterrupt; split
  · exact Nat.le_succ _
  · exact Nat.le_refl _

theorem endSession_synthId (now : Nat) (r : String) (s : Session) :
    (endSession now r s).1.currentSynthesisId = s.currentSynthesisId := by
  unfold endSession; split <;> rfl

theorem synthesizeAndPlayResume_synthId (s : Session) (sid : Nat)
    (tts : Except String Frame) :
    (synthesizeAndPlayResume s sid tts).1.currentSynthesisId
      = s.currentSynthesisId := by
  unfold synthesizeAndPlayResume
  cases tts with
  | error e => dsimp only; split <;> rfl
  | ok f =>
    dsimp only
    split
    · rfl
    · exact sendAudio_synthId s f

theorem playbackTimerFire_synthId (s : Session) (sid : Nat) :
    (playbackTimerFire s sid).1.currentSynthesisId = s.currentSynthesisId := by
  unfold playbackTimerFire; split <;> rfl

theorem handleToolCall_synthId (env : Env) (now : Nat) (s : Session)
    (tc : ToolCall) :
    (handleToolCall env now s tc).1.currentSynthesisId
      = s.currentSynthesisId := by
  unfold handleToolCall
  split
  · exact endSession_synthId now "assistant-ended" s
  · split <;> rfl

theorem handleToolCalls_synthId (env : Env) (now : Nat) (tcs : List ToolCall) :
    ∀ s : Session,
      (handleToolCalls env now s tcs).1.currentSynthesisId
        = s.currentSynthesisId := by
  induction tcs with
  | nil => intro s; rfl
  | cons tc rest ih =>
    intro s
    show (handleToolCalls env now
      (handleToolCall env now s tc).1 rest).1.currentSynthesisId = _
    rw [ih, handleToolCall_synthId]

theorem generateResponse_synthId_le (env : Env) (now : Nat)
    (llms : List (Except String LLMResponse)) :
    ∀ s : Session,
      s.currentSynthesisId
        ≤ (generateResponse env now s llms).1.currentSynthesisId := by
  induction llms with
  | nil => intro s; exact Nat.le_refl _
  | cons o rest ih =>
    intro s
    cases o with
    | error e => exact Nat.le_refl _
    | ok r =>
      simp only [generateResponse]
      repeat' split
      all_goals dsimp only
      · calc s.currentSynthesisId
            = (handleToolCalls env now s r.toolCalls).1.currentSynthesisId :=
              (handleToolCalls_synthId env now r.toolCalls s).symm
          _ ≤ _ := ih _
      · rw [synthesizeAndPlayResume_synthId]
        exact Nat.le_succ _
      · exact Nat.le_refl _

theorem processUserSpeech_synthId_le (env : Env) (now : Nat) (s : Session) :
    s.currentSynthesisId
      ≤ (processUserSpeech env now s).1.currentSynthesisId := by
  unfold processUserSpeech
  repeat' split
  all_goals try dsimp only
  all_goals
    first
      | exact Nat.le_refl _
      | (refine Nat.le_trans ?_ (generateResponse_synthId_le env now env.llm _)
         exact Nat.le_refl _)

theorem handleAudioData_synthId_le (a : Assistant) (env : Env) (now : Nat)
    (s : Session) (data : Frame) :
    s.currentSynthesisId
      ≤ (handleAudioData a env now s data).1.currentSynthesisId := by
  unfold handleAudioData
  repeat' split
  all_goals try dsimp only
  all_goals repeat' split
  all_goals try dsimp only
  all_goals
    first
      | exact Nat.le_refl _
      | (refine Nat.le_trans ?_ (handleInterrupt_synthId_le _)
         exact Nat.le_refl _)
      | (refine Nat.le_trans ?_ (processUserSpeech_synthId_le env now _)
         exact Nat.le_refl _)

theorem start_synthId_le (a : Assistant) (env : Env) (now : Nat)
    (s : Session) :
    s.currentSynthesisId ≤ (start a env now s).1.currentSynthesisId := by
  unfold start
  cases a.firstMessage with
  | none => exact Nat.le_refl _
  | some fm =>
    dsimp only
    rw [synthesizeAndPlayResume_synthId]
    exact Nat.le_succ _

theorem handleControlMessage_synthId_le (now : Nat) (s : Session)
    (msgType : String) :
    s.currentSynthesisId
      ≤ (handleControlMessage now s msgType).1.currentSynthesisId := by
  unfold handleControlMessage
  split
  · exact Nat.le_of_eq (endSession_synthId now "client-request" s).symm
  · split
    · exact handleInterrupt_synthId_le s
    · exact Nat.le_refl _

theorem onSocketClose_synthId (now : Nat) (s : Session) :
    (onSocketClose now s).1.currentSynthesisId = s.currentSynthesisId := by
  unfold onSocketClose
  split
  · rfl
  · exact endSession_synthId now "client-disconnect" s



/- ### Helper lemmas: end reasons appearing in traces -/

theorem reasonsOk_nil : reasonsOk [] = true := rfl

theorem reasonsOk_cons (e : Effect) (tr : List Effect) :
    reasonsOk (e :: tr) = (effectEndedOk e && reasonsOk tr) := by
  simp [reasonsOk]

theorem reasonsOk_append (t1 t2 : List Effect) :
    reasonsOk (t1 ++ t2) = (reasonsOk t1 && reasonsOk t2) := by
  simp [reasonsOk, List.all_append]

theorem reasonsOk_saveRecording (s : Session) :
    reasonsOk (saveRecording s) = true := by
  unfold saveRecording
  repeat' split
  all_goals simp [reasonsOk, effectEndedOk]

theorem reasonsOk_endSession (now : Nat) (r : String) (s : Session)
    (h : engineEndReasons.contains r = true) :
    reasonsOk (endSession now r s).2 = true := by
  unfold endSession
  split
  · rfl
  · dsimp only
    rw [reasonsOk_append, reasonsOk_cons, reasonsOk_cons,
      reasonsOk_saveRecording]
    have hm : r ∈ engineEndReasons := by simpa using h
    simp [effectEndedOk, reasonsOk, hm]

theorem reasonsOk_sendAudio (s : Session) (f : Frame) :
    reasonsOk (sendAudio s f).2 = true := by
  unfold sendAudio
  split <;> simp [reasonsOk, effectEndedOk]

theorem reasonsOk_handleInterrupt (s : Session) :
    reasonsOk (handleInterrupt s).2 = true := by
  unfold handleInterrupt
  split <;> simp [reasonsOk, effectEndedOk]

theorem reasonsOk_synthesizeAndPlayResume (s : Session) (sid : Nat)
    (tts : Except String Frame) :
    reasonsOk (synthesizeAndPlayResume s sid tts).2 = true := by
  unfold synthesizeAndPlayResume
  cases tts with
  | error e => dsimp only; split <;> simp [reasonsOk, effectEndedOk]
  | ok f =>
    dsimp only
    split
    · rfl
    · dsimp only
      rw [reasonsOk_append, reasonsOk_cons, reasonsOk_sendAudio]
      simp [effectEndedOk, reasonsOk]

theorem reasonsOk_playbackTimerFire (s : Session) (sid : Nat) :
    reasonsOk (playbackTimerFire s sid).2 = true := by
  unfold playbackTimerFire
  split <;> simp [reasonsOk, effectEndedOk]

theorem reasonsOk_handleToolCall (env : Env) (now : Nat) (s : Session)
    (tc : ToolCall) :
    reasonsOk (handleToolCall env now s tc).2 = true := by
  unfold handleToolCall
  split
  · dsimp only
    rw [reasonsOk_cons, reasonsOk_endSession now "assistant-ended" s (by decide)]
    simp [effectEndedOk]
  · split <;> simp [reasonsOk, effectEndedOk, saveMessage]

theorem reasonsOk_handleToolCalls (env : Env) (now : Nat)
    (tcs : List ToolCall) :
    ∀ s : Session, reasonsOk (handleToolCalls env now s tcs).2 = true := by
  induction tcs with
  | nil => intro s; rfl
  | cons tc rest ih =>
    intro s
    show reasonsOk ((handleToolCall env now s tc).2 ++ _) = true
    rw [reasonsOk_append, reasonsOk_handleToolCall, ih, Bool.and_self]

theorem reasonsOk_generateResponse (env : Env) (now : Nat)
    (llms : List (Except String LLMResponse)) :
    ∀ s : Session, reasonsOk (generateResponse env now s llms).2 = true := by
  induction llms with
  | nil => intro s; rfl
  | cons o rest ih =>
    intro s
    cases o with
    | error e => rfl
    | ok r =>
      simp only [generateResponse]
      repeat' split
      all_goals try dsimp only
      · rw [reasonsOk_append, reasonsOk_handleToolCalls, ih, Bool.and_self]
      · rw [reasonsOk_cons, reasonsOk_cons,
          reasonsOk_synthesizeAndPlayResume]
        simp [effectEndedOk, saveMessage]
      · rfl

theorem reasonsOk_processUserSpeech (env : Env) (now : Nat) (s : Session) :
    reasonsOk (processUserSpeech env now s).2 = true := by
  unfold processUserSpeech
  repeat' split
  all_goals try dsimp only
  all_goals
    first
      | rfl
      | (rw [reasonsOk_cons, reasonsOk_cons, reasonsOk_cons,
          reasonsOk_generateResponse]
         simp [effectEndedOk, saveMessage])

theorem reasonsOk_handleAudioData (a : Assistant) (env : Env) (now : Nat)
    (s : Session) (data : Frame) :
    reasonsOk (handleAudioData a env now s data).2 = true := by
  unfold handleAudioData
  repeat' split
  all_goals try dsimp only
  all_goals repeat' split
  all_goals try dsimp only
  all_goals
    first
      | rfl
      | (rw [reasonsOk_append, reasonsOk_handleInterrupt]
         simp [reasonsOk, effectEndedOk])
      | (rw [reasonsOk_cons, reasonsOk_processUserSpeech]
         simp [effectEndedOk])

theorem reasonsOk_start (a : Assistant) (env : Env) (now : Nat)
    (s : Session) :
    reasonsOk (start a env now s).2 = true := by
  unfold start
  cases a.firstMessage with
  | none => rfl
  | some fm =>
    dsimp only
    rw [reasonsOk_append, reasonsOk_cons, reasonsOk_cons, reasonsOk_cons,
      reasonsOk_cons, reasonsOk_synthesizeAndPlayResume]
    simp [effectEndedOk, saveMessage, reasonsOk]

theorem reasonsOk_handleControlMessage (now : Nat) (s : Session)
    (msgType : String) :
    reasonsOk (handleControlMessage now s msgType).2 = true := by
  unfold handleControlMessage
  split
  · exact reasonsOk_endSession now "client-request" s (by decide)
  · split
    · exact reasonsOk_handleInterrupt s
    · rfl

theorem reasonsOk_onSocketClose (now : Nat) (s : Session) :
    reasonsOk (onSocketClose now s).2 = true := by
  unfold onSocketClose
  split
  · rfl
  · exact reasonsOk_endSession now "client-disconnect" s (by decide)

/- ### Helper lemmas: the VAD loop versus the sample decoding -/

theorem vadLoop_even : ∀ (b : List Nat) (i : Nat), b.length % 2 = 0 →
    vadLoop b i = Except.ok (sampleAbsSum b)
  | [], _, _ => rfl
  | [_], _, h => by simp [List.length] at h
  | lo :: hi :: rest, i, h => by
    have h' : rest.length % 2 = 0 := by
      simp only [List.length_cons] at h
      omega
    simp [vadLoop, vadLoop_even rest (i + 2) h', sampleAbsSum, int16Samples,
      Nat.add_comm]

theorem vadLoop_odd : ∀ (b : List Nat) (i : Nat), b.length % 2 = 1 →
    vadLoop b i = Except.error (i + b.length - 1)
  | [], _, h => by simp [List.length] at h
  | [_], i, _ => by simp [vadLoop]
  | lo :: hi :: rest, i, h => by
    have h' : rest.length % 2 = 1 := by
      simp only [List.length_cons] at h
      omega
    have : i + 2 + rest.length - 1 = i + (rest.length + 1 + 1) - 1 := by omega
    simp [vadLoop, vadLoop_odd rest (i + 2) h', this]

theorem int16Samples_length : ∀ b : List Nat,
    (int16Samples b).length = b.length / 2
  | [] => rfl
  | [_] => by simp [int16Samples]
  | _ :: _ :: rest => by
    simp only [int16Samples, List.length_cons, int16Samples_length rest]
    omega

theorem detectVoiceActivity_even (b : List Nat) (h : b.length % 2 = 0) :
    detectVoiceActivity b = Except.ok true ↔ meanAbsAmplitude b > 200 := by
  unfold detectVoiceActivity
  rw [vadLoop_even b 0 h]
  simp only [Except.ok.injEq, decide_eq_true_eq]
  unfold meanAbsAmplitude
  rw [int16Samples_length b]
  obtain ⟨k, hk⟩ : ∃ k, b.length = 2 * k := ⟨b.length / 2, by omega⟩
  rcases Nat.eq_zero_or_pos k with hk0 | hkpos
  · have hb : b = [] := List.length_eq_zero.mp (by omega)
    subst hb
    simp [sampleAbsSum, int16Samples]
  · have h2 : b.length / 2 = k := by omega
    rw [h2, hk, gt_iff_lt, gt_iff_lt,
      lt_div_iff (by exact_mod_cast hkpos)]
    have hcast : (200 : ℚ) * (k : ℚ) < (sampleAbsSum b : ℚ)
        ↔ 200 * k < sampleAbsSum b := by
      exact_mod_cast Iff.rfl
    rw [hcast]
    omega

theorem detectVoiceActivity_odd (b : List Nat) (h : b.length % 2 = 1) :
    detectVoiceActivity b = Except.error (b.length - 1) := by
  unfold detectVoiceActivity
  rw [vadLoop_odd b 0 h]
  simp

/- ### Helper lemmas: `end` and its idempotence -/

theorem endSession_of_ended (now : Nat) (r : String) (s : Session)
    (h : s.isEnded = true) : endSession now r s = (s, []) := by
  unfold endSession
  simp [h]

theorem endSession_isEnded (now : Nat) (r : String) (s : Session) :
    (endSession now r s).1.isEnded = true := by
  unfold endSession
  split
  · assumption
  · rfl

theorem endMany_of_ended (now : Nat) : ∀ (rs : List String) (s : Session),
    s.isEnded = true → endMany now rs s = (s, []) := by
  intro rs
  induction rs with
  | nil => intro s _; rfl
  | cons r rest ih =>
    intro s h
    show (let p := endSession now r s
          let q := endMany now rest p.1
          ((q.1, p.2 ++ q.2) : Session × List Effect)) = (s, [])
    rw [endSession_of_ended now r s h]
    dsimp only
    rw [ih s h]
    rfl

theorem countCallEnded_saveRecording (s : Session) :
    countCallEnded (saveRecording s) = 0 := by
  unfold saveRecording
  repeat' split
  all_goals simp [countCallEnded]

theorem countFinalize_saveRecording (s : Session) :
    countFinalize (saveRecording s) = 0 := by
  unfold saveRecording
  repeat' split
  all_goals simp [countFinalize]

theorem countRecordingFlush_saveRecording (s : Session) :
    countRecordingFlush (saveRecording s) = 1 := by
  unfold saveRecording
  repeat' split
  all_goals simp [countRecordingFlush]

/- ### Claim theorems -/

/-- Claim C1: across every operation of the engine, `currentSynthesisId`
never decreases (the only writes are the increments in `handleInterrupt`
and `synthesizeAndPlay`); and when the TTS call of a synthesis settles
after the state has left `'speaking'` or after its captured id has been
overtaken, the resumed `synthesizeAndPlay` discards the audio: the session
is unchanged and no effect — in particular no socket transmission — is
produced. -/
theorem synthesisId_monotone_stale_audio_discarded :
    (∀ (s s' : Session) (tr : List Effect), OpStep s s' tr →
      s.currentSynthesisId ≤ s'.currentSynthesisId)
    ∧ (∀ (s : Session) (sid : Nat) (tts : Except String Frame),
        s.state ≠ SState.speaking ∨ s.currentSynthesisId ≠ sid →
        synthesizeAndPlayResume s sid tts = (s, [])) := by
  constructor
  · intro s s' tr h
    cases h
    all_goals
      first
        | exact handleAudioData_synthId_le _ _ _ _ _
        | exact handleControlMessage_synthId_le _ _ _
        | exact Nat.le_of_eq (onSocketClose_synthId _ _).symm
        | exact Nat.le_of_eq (endSession_synthId _ _ _).symm
        | exact start_synthId_le _ _ _ _
        | exact Nat.le_of_eq (synthesizeAndPlayResume_synthId _ _ _).symm
        | exact Nat.le_of_eq (playbackTimerFire_synthId _ _).symm
        | exact processUserSpeech_synthId_le _ _ _
  · intro s sid tts h
    unfold synthesizeAndPlayResume
    cases tts with
    | error e =>
      dsimp only
      split
      · rename_i hc
        cases h with
        | inl h1 => exact absurd hc.1 h1
        | inr h2 => exact absurd hc.2 h2
      · rfl
    | ok f =>
      dsimp only
      split
      · rfl
      · rename_i hc
        exact absurd h hc

theorem synthesisId_monotone_stale_audio_discarded_witness :
    sampleSession.currentSynthesisId
      ≤ (playbackTimerFire sampleSession 0).1.currentSynthesisId
    ∧ synthesizeAndPlayResume sampleSession 5 (Except.ok [1, 2])
        = (sampleSession, []) :=
  ⟨synthesisId_monotone_stale_audio_discarded.1 sampleSession _ _
      (OpStep.timerFire sampleSession 0),
   synthesisId_monotone_stale_audio_discarded.2 sampleSession 5
      (Except.ok [1, 2]) (Or.inr (by decide))⟩

/-- Claim C2 (code bug): the engine contains no max-call-duration timer.
`start` never reads `maxCallDurationSeconds` — its result is invariant
under changing the field — and no operation of the engine can emit
`call.ended` with reason `"max-duration"`: every `call.ended` event of
every operation carries a reason from `engineEndReasons`, which does not
contain `"max-duration"`. -/
theorem maxDuration_never_enforced :
    (∀ (a : Assistant) (d : Nat) (env : Env) (now : Nat) (s : Session),
      start { a with maxCallDurationSeconds := d } env now s
        = start a env now s)
    ∧ (∀ (s s' : Session) (tr : List Effect), OpStep s s' tr →
        reasonsOk tr = true)
    ∧ engineEndReasons.contains "max-duration" = false := by
  refine ⟨fun a d env now s => rfl, ?_, by decide⟩
  intro s s' tr h
  cases h
  all_goals
    first
      | exact reasonsOk_handleAudioData _ _ _ _ _
      | exact reasonsOk_handleControlMessage _ _ _
      | exact reasonsOk_onSocketClose _ _
      | exact reasonsOk_endSession _ _ _ (by decide)
      | exact reasonsOk_start _ _ _ _
      | exact reasonsOk_synthesizeAndPlayResume _ _ _
      | exact reasonsOk_playbackTimerFire _ _
      | exact reasonsOk_processUserSpeech _ _ _

theorem maxDuration_never_enforced_witness :
    reasonsOk (handleControlMessage 0 sampleSession "end").2 = true
    ∧ start { sampleAssistant with maxCallDurationSeconds := 9999 }
        sampleEnv 0 sampleSession
      = start sampleAssistant sampleEnv 0 sampleSession :=
  ⟨maxDuration_never_enforced.2.1 _ _ _ (OpStep.control 0 sampleSession "end"),
   maxDuration_never_enforced.1 sampleAssistant 9999 sampleEnv 0 sampleSession⟩

/-- Claim C3: `end` is idempotent.  For any `N ≥ 1` invocations (any
reasons), the composite behaviour equals the first invocation alone, and
the combined trace holds exactly one `call.ended` event, exactly one
Call-row finalisation write (the update carrying `endedReason`; the
recording flush's own URL update is part of the flush) and exactly one
recording flush. -/
theorem end_idempotent (now : Nat) (r : String) (rs : List String)
    (s : Session) (h : s.isEnded = false) :
    endMany now (r :: rs) s = endSession now r s
    ∧ countCallEnded (endMany now (r :: rs) s).2 = 1
    ∧ countFinalize (endMany now (r :: rs) s).2 = 1
    ∧ countRecordingFlush (endMany now (r :: rs) s).2 = 1 := by
  have h1 : endMany now (r :: rs) s = endSession now r s := by
    show (let p := endSession now r s
          let q := endMany now rs p.1
          ((q.1, p.2 ++ q.2) : Session × List Effect)) = endSession now r s
    dsimp only
    rw [endMany_of_ended now rs _ (endSession_isEnded now r s)]
    simp
  refine ⟨h1, ?_, ?_, ?_⟩
  · rw [h1]
    have hsr := countCallEnded_saveRecording { s with isEnded := true }
    unfold endSession
    unfold countCallEnded at hsr ⊢
    simp [h, List.countP_append, List.countP_cons, hsr]
  · rw [h1]
    have hsr := countFinalize_saveRecording { s with isEnded := true }
    unfold endSession
    unfold countFinalize at hsr ⊢
    simp [h, List.countP_append, List.countP_cons, hsr]
  · rw [h1]
    have hsr := countRecordingFlush_saveRecording { s with isEnded := true }
    unfold endSession
    unfold countRecordingFlush at hsr ⊢
    simp [h, List.countP_append, List.countP_cons, hsr]

theorem end_idempotent_witness :
    sampleSession.isEnded = false
    ∧ endMany 5000 ["client-request", "api-request"] sampleSession
        = endSession 5000 "client-request" sampleSession
    ∧ countCallEnded
        (endMany 5000 ["client-request", "api-request"] sampleSession).2
        = 1 :=
  ⟨by decide,
   (end_idempotent 5000 "client-request" ["api-request"] sampleSession
      (by decide)).1,
   (end_idempotent 5000 "client-request" ["api-request"] sampleSession
      (by decide)).2.1⟩

/-- Claim C4: in the normal listening path (session not ended, not in the
speaking-with-interruption branch), for a frame classified silent while
`isSpeaking` holds, endpointing fires — `speech.ended` is emitted and
`processUserSpeech` runs — exactly when the measured silence duration
exceeds `min(assistant.silenceTimeoutMs, 1200)`: a configured value above
1200 ms is capped at 1200 ms and a value at or below 1200 ms is honoured
directly.  The silence onset is `silenceStart`, set to `now` when the
sentinel 0 is stored. -/
theorem silence_timeout_capped (a : Assistant) (env : Env) (now : Nat)
    (s : Session) (data : Frame)
    (hEnd : s.isEnded = false)
    (hPath : ¬(s.state = SState.speaking ∧ a.interruptionEnabled = true))
    (hVad : detectVoiceActivity data = Except.ok false)
    (hSpk : s.isSpeaking = true) :
    (Effect.event "speech.ended" EvData.empty
        ∈ (handleAudioData a env now s data).2
      ↔ now - (if s.silenceStart = 0 then now else s.silenceStart)
          > min a.silenceTimeoutMs 1200)
    ∧ (1200 ≤ a.silenceTimeoutMs →
        (Effect.event "speech.ended" EvData.empty
            ∈ (handleAudioData a env now s data).2
          ↔ now - (if s.silenceStart = 0 then now else s.silenceStart)
              > 1200))
    ∧ (a.silenceTimeoutMs ≤ 1200 →
        (Effect.event "speech.ended" EvData.empty
            ∈ (handleAudioData a env now s data).2
          ↔ now - (if s.silenceStart = 0 then now else s.silenceStart)
              > a.silenceTimeoutMs))
    ∧ (now - (if s.silenceStart = 0 then now else s.silenceStart)
          > min a.silenceTimeoutMs 1200 →
        (handleAudioData a env now s data).2
          = Effect.event "speech.ended" EvData.empty ::
            (processUserSpeech env now
              { s with
                userAudioChunks := s.userAudioChunks ++ [data],
                audioBuffer := s.audioBuffer ++ [data],
                silenceStart :=
                  if s.silenceStart = 0 then now else s.silenceStart,
                isSpeaking := false }).2) := by
  have hmem : Effect.event "speech.ended" EvData.empty
        ∈ (handleAudioData a env now s data).2
      ↔ now - (if s.silenceStart = 0 then now else s.silenceStart)
          > min a.silenceTimeoutMs 1200 := by
    unfold handleAudioData
    rw [hVad]
    simp only [hEnd, Bool.false_eq_true, if_false, hSpk, if_true]
    split
    · rename_i hc
      exact absurd hc hPath
    · repeat' split
      all_goals try simp
      all_goals omega
  refine ⟨hmem, ?_, ?_, ?_⟩
  · intro hc
    rw [hmem, Nat.min_eq_right hc]
  · intro hc
    rw [hmem, Nat.min_eq_left hc]
  · intro hfire
    unfold handleAudioData
    rw [hVad]
    simp only [hEnd, Bool.false_eq_true, if_false, hSpk, if_true]
    split
    · rename_i hc
      exact absurd hc hPath
    · repeat' split
      all_goals rfl

theorem silence_timeout_capped_witness :
    listeningSession.isEnded = false
    ∧ ¬(listeningSession.state = SState.speaking
        ∧ sampleAssistant.interruptionEnabled = true)
    ∧ detectVoiceActivity [0, 0] = Except.ok false
    ∧ listeningSession.isSpeaking = true
    ∧ (Effect.event "speech.ended" EvData.empty
          ∈ (handleAudioData sampleAssistant sampleEnv 2000
              listeningSession [0, 0]).2
        ↔ 2000 - (if listeningSession.silenceStart = 0 then 2000
            else listeningSession.silenceStart)
            > min sampleAssistant.silenceTimeoutMs 1200) :=
  ⟨by decide, by decide, by decide, by decide,
   (silence_timeout_capped sampleAssistant sampleEnv 2000 listeningSession
      [0, 0] (by decide) (by decide) (by decide) (by decide)).1⟩

theorem countMessageRows_sendAudio (r : String) (s : Session) (f : Frame) :
    countMessageRows r (sendAudio s f).2 = 0 := by
  unfold sendAudio
  split <;> simp [countMessageRows]

theorem countMessageRows_synthesizeAndPlayResume (r : String) (s : Session)
    (sid : Nat) (tts : Except String Frame) :
    countMessageRows r (synthesizeAndPlayResume s sid tts).2 = 0 := by
  unfold synthesizeAndPlayResume
  cases tts with
  | error e => dsimp only; split <;> simp [countMessageRows]
  | ok f =>
    dsimp only
    split
    · rfl
    · dsimp only
      have hsa := countMessageRows_sendAudio r s f
      unfold countMessageRows at hsa ⊢
      simp [List.countP_append, List.countP_cons, hsa]

theorem start_trace_some (a : Assistant) (fm : String) (env : Env)
    (now : Nat) (s : Session) (h : a.firstMessage = some fm) :
    (start a env now s).2
      = Effect.event "call.started" (EvData.callStarted s.callId a.name) ::
        Effect.dbCallUpdate (startCallUpdate now) ::
        Effect.event "assistant.message" (EvData.text fm) ::
        saveMessage "assistant" fm 0 none ::
        (synthesizeAndPlayResume
          { s with
            startTime := now, state := SState.speaking,
            messages := s.messages ++ [Message.mk "assistant" fm none],
            currentSynthesisId := s.currentSynthesisId + 1 }
          (s.currentSynthesisId + 1) env.tts).2 := by
  unfold start
  rw [h]
  rfl

/-- Claim C5 (code bug): `start` never consults `firstMessageMode` — its
result is invariant under changing the field — and whenever a
`firstMessage` F is configured it emits `assistant.message`, persists
exactly one CallMessage row (role `assistant`, content F,
`timestampMs: 0`) and synthesizes it, even when the mode is
`assistant-waits-for-user` (as in `sampleAssistant`), where the claim says
the session must stay silent. -/
theorem firstMessage_ignores_mode :
    (∀ (a : Assistant) (m : String) (env : Env) (now : Nat) (s : Session),
      start { a with firstMessageMode := m } env now s = start a env now s)
    ∧ (∀ (a : Assistant) (fm : String) (env : Env) (now : Nat) (s : Session),
        countMessageRows "assistant"
          (start { a with firstMessage := some fm } env now s).2 = 1
        ∧ Effect.event "assistant.message" (EvData.text fm)
            ∈ (start { a with firstMessage := some fm } env now s).2
        ∧ Effect.dbMessageCreate (CallMessageRow.mk "assistant" fm 0 none)
            ∈ (start { a with firstMessage := some fm } env now s).2)
    ∧ sampleAssistant.firstMessageMode = "assistant-waits-for-user"
    ∧ Effect.event "assistant.message" (EvData.text "Hello.")
        ∈ (start sampleAssistant sampleEnv 0 sampleSession).2 := by
  refine ⟨fun a m env now s => rfl, ?_, rfl, by decide⟩
  intro a fm env now s
  have ht := start_trace_some { a with firstMessage := some fm } fm env now s
    rfl
  rw [ht]
  refine ⟨?_, ?_, ?_⟩
  · have hq := countMessageRows_synthesizeAndPlayResume "assistant"
      { s with
        startTime := now, state := SState.speaking,
        messages := s.messages ++ [Message.mk "assistant" fm none],
        currentSynthesisId := s.currentSynthesisId + 1 }
      (s.currentSynthesisId + 1) env.tts
    unfold countMessageRows at hq ⊢
    simp [List.countP_cons, saveMessage, hq]
  · simp
  · simp [saveMessage]

/-- Claim C6 counterexample: on an STT failure (`sttFailEnv` models a 500
from the transcriber) the turn's only emitted event is
`assistant.thinking`; contrary to the claim, no `assistant.audio.done` is
emitted. -/
theorem stt_failure_no_audio_done_counterexample :
    eventTypes (processUserSpeech sttFailEnv 1000
        { listeningSession with audioBuffer := [[0, 0]] }).2
      = ["assistant.thinking"]
    ∧ "assistant.audio.done" ∉ eventTypes (processUserSpeech sttFailEnv 1000
        { listeningSession with audioBuffer := [[0, 0]] }).2 := by
  constructor <;> decide

/-- Claim C6 (amended): a thrown STT error is a recoverable turn failure:
the session returns to listening with the input buffer taken, appends no
message to the history, persists nothing, does not end — but it does NOT
emit `assistant.audio.done`; the only event of the failed turn is the
`assistant.thinking` emitted before transcription (only the LLM failure
path emits `assistant.audio.done`). -/
theorem stt_failure_recoverable (env : Env) (now : Nat) (s : Session)
    (e : String) (hBuf : s.audioBuffer ≠ [])
    (hStt : env.stt = Except.error e) :
    processUserSpeech env now s
      = ({ s with audioBuffer := [], state := SState.listening },
        [Effect.event "assistant.thinking" EvData.empty])
    ∧ (processUserSpeech env now s).1.messages = s.messages
    ∧ (processUserSpeech env now s).1.isEnded = s.isEnded
    ∧ "assistant.audio.done" ∉ eventTypes (processUserSpeech env now s).2 := by
  have h1 : processUserSpeech env now s
      = ({ s with audioBuffer := [], state := SState.listening },
        [Effect.event "assistant.thinking" EvData.empty]) := by
    unfold processUserSpeech
    rw [hStt]
    simp [hBuf]
  refine ⟨h1, ?_, ?_, ?_⟩
  · rw [h1]
  · rw [h1]
  · rw [h1]
    simp [eventTypes]

theorem stt_failure_recoverable_witness :
    ({ listeningSession with audioBuffer := [[0, 0]] } : Session).audioBuffer
        ≠ []
    ∧ sttFailEnv.stt = Except.error "Deepgram error: 500"
    ∧ processUserSpeech sttFailEnv 1000
        { listeningSession with audioBuffer := [[0, 0]] }
      = ({ listeningSession with
            audioBuffer := ([] : List Frame), state := SState.listening },
        [Effect.event "assistant.thinking" EvData.empty]) :=
  ⟨by decide, rfl,
   (stt_failure_recoverable sttFailEnv 1000
      { listeningSession with audioBuffer := [[0, 0]] }
      "Deepgram error: 500" (by decide) rfl).1⟩

/-- Claim C7 (code bug): the transfer tool definition projected to the LLM
declares `destination` as its required parameter, but `handleToolCall`
builds `transfer.started` from `toolCall.arguments.number`.  For the seed
tool call carrying `destination = "+15551234"`, the emitted
`transfer.started` destination is `none` — not `some "+15551234"` — while
the state is unchanged and no audio effect is produced on the turn. -/
theorem transfer_destination_mismatch :
    (getToolDefinitions [transferTool]).map
        (fun d => (d.name, d.parameters.required))
      = [("transferCall", ["destination"])]
    ∧ List.lookup "destination" transferCallTc.args = some "+15551234"
    ∧ List.lookup "number" transferCallTc.args = none
    ∧ handleToolCall sampleEnv 0 sampleSession transferCallTc
      = (sampleSession,
        [Effect.event "tool.called" (EvData.toolCalled "transferCall"),
         Effect.event "transfer.started" (EvData.transferStarted none)])
    ∧ EvData.transferStarted none
        ≠ EvData.transferStarted (some "+15551234") := by
  refine ⟨by decide, by decide, by decide, ?_, by decide⟩
  decide

/-- Claim C8 (code bug): the `prisma.call.update` that `start` issues
writes `status: 'active'` — a value outside the declared `CallStatus`
union and different from the claimed `'in-progress'` — together with
`startedAt = now`. -/
theorem start_status_outside_enum (a : Assistant) (env : Env) (now : Nat)
    (s : Session) :
    Effect.dbCallUpdate (startCallUpdate now) ∈ (start a env now s).2
    ∧ (startCallUpdate now).status = some "active"
    ∧ (startCallUpdate now).startedAt = some now
    ∧ callStatuses.contains "active" = false
    ∧ ("active" : String) ≠ "in-progress" := by
  refine ⟨?_, rfl, rfl, by decide, by decide⟩
  unfold start
  cases a.firstMessage <;> simp

/-- Claim C9 counterexample: when the socket is not open the surviving
buffer is appended to `assistantAudioChunks` only once (`sendAudio`
returns before its push), not twice as the claim states for every
surviving buffer. -/
theorem assistant_chunks_single_append_counterexample :
    (synthesizeAndPlayResume speakingClosedSession 3
        (Except.ok [7])).1.assistantAudioChunks = [[7]]
    ∧ ([[7]] : List Frame) ≠ [[7], [7]] := by
  constructor <;> decide

/-- Claim C9 (amended): when the socket is open (`readyState === OPEN`), a
buffer that survives the interruption check is appended to
`assistantAudioChunks` twice — once inside `sendAudio` and once again in
`synthesizeAndPlay` — so the persisted assistant blob
(`{callId}-assistant.pcm`, the concatenation of `assistantAudioChunks`
written by `saveRecording`) contains each assistant utterance duplicated;
when the socket is not open the buffer is appended only once. -/
theorem assistant_audio_double_append (s : Session) (sid : Nat) (f : Frame)
    (hSt : s.state = SState.speaking) (hId : s.currentSynthesisId = sid)
    (hOpen : s.socketOpen = true) :
    (synthesizeAndPlayResume s sid (Except.ok f)).1.assistantAudioChunks
      = s.assistantAudioChunks ++ [f, f]
    ∧ (synthesizeAndPlayResume s sid
          (Except.ok f)).1.assistantAudioChunks.flatten
      = s.assistantAudioChunks.flatten ++ (f ++ f)
    ∧ ∀ s' : Session, s'.assistantAudioChunks ≠ [] →
        Effect.fileWrite (s'.callId ++ "-assistant.pcm")
          s'.assistantAudioChunks.flatten ∈ saveRecording s' := by
  have h1 : (synthesizeAndPlayResume s sid
        (Except.ok f)).1.assistantAudioChunks
      = s.assistantAudioChunks ++ [f, f] := by
    have hdis : ¬(s.state ≠ SState.speaking ∨ s.currentSynthesisId ≠ sid) := by
      push_neg
      exact ⟨hSt, hId⟩
    unfold synthesizeAndPlayResume
    dsimp only
    rw [if_neg hdis]
    unfold sendAudio
    rw [if_pos hOpen]
    dsimp only
    rw [List.append_assoc]
    rfl
  refine ⟨h1, ?_, ?_⟩
  · rw [h1]
    simp
  · intro s' hne
    unfold saveRecording
    rw [if_pos hne]
    simp

theorem assistant_audio_double_append_witness :
    speakingOpenSession.state = SState.speaking
    ∧ speakingOpenSession.currentSynthesisId = 3
    ∧ speakingOpenSession.socketOpen = true
    ∧ (synthesizeAndPlayResume speakingOpenSession 3
          (Except.ok [7])).1.assistantAudioChunks
        = speakingOpenSession.assistantAudioChunks ++ [[7], [7]] :=
  ⟨rfl, rfl, rfl,
   (assistant_audio_double_append speakingOpenSession 3 [7]
      rfl rfl rfl).1⟩

/-- Claim C10 counterexample: the frame of odd byte length is NOT dropped
by the catch — after `handleAudioData` it sits in both `audioBuffer` and
`userAudioChunks` (the pushes happen before the throwing VAD read). -/
theorem vad_odd_frame_not_dropped_counterexample :
    ([0, 0, 0] : Frame) ∈ (handleAudioData sampleAssistant sampleEnv 0
        sampleSession [0, 0, 0]).1.audioBuffer
    ∧ ([0, 0, 0] : Frame) ∈ (handleAudioData sampleAssistant sampleEnv 0
        sampleSession [0, 0, 0]).1.userAudioChunks := by
  constructor <;> decide

/-- Claim C10 (amended): `detectVoiceActivity` is total exactly on frames
of even byte length — there it returns true iff the mean absolute sample
amplitude exceeds 200; on a frame of odd length the final `readInt16LE`
at byte offset `length − 1` raises an out-of-range error, which propagates
to the socket message handler's catch — but the frame is not dropped: it
was already appended to `userAudioChunks` and (in the non-speaking path)
to `audioBuffer`; only the remaining VAD/endpointing handling of the frame
is skipped. -/
theorem vad_parity_and_odd_frame_kept :
    (∀ b : Frame, b.length % 2 = 0 →
      (detectVoiceActivity b = Except.ok true ↔ meanAbsAmplitude b > 200))
    ∧ (∀ b : Frame, b.length % 2 = 1 →
      detectVoiceActivity b = Except.error (b.length - 1))
    ∧ (∀ (a : Assistant) (env : Env) (now : Nat) (s : Session) (b : Frame),
        s.isEnded = false →
        ¬(s.state = SState.speaking ∧ a.interruptionEnabled = true) →
        b.length % 2 = 1 →
        handleAudioData a env now s b
          = ({ s with
                userAudioChunks := s.userAudioChunks ++ [b],
                audioBuffer := s.audioBuffer ++ [b] }, [])) := by
  refine ⟨fun b hb => detectVoiceActivity_even b hb,
    fun b hb => detectVoiceActivity_odd b hb, ?_⟩
  intro a env now s b hEnd hPath hOdd
  unfold handleAudioData
  rw [detectVoiceActivity_odd b hOdd]
  simp only [hEnd, Bool.false_eq_true, if_false]
  split
  · rename_i hc
    exact absurd hc hPath
  · rfl

theorem vad_parity_and_odd_frame_kept_witness :
    ([0, 0, 0] : Frame).length % 2 = 1
    ∧ detectVoiceActivity [0, 0, 0] = Except.error 2
    ∧ sampleSession.isEnded = false
    ∧ ¬(sampleSession.state = SState.speaking
        ∧ sampleAssistant.interruptionEnabled = true)
    ∧ handleAudioData sampleAssistant sampleEnv 0 sampleSession [0, 0, 0]
      = ({ sampleSession with
            userAudioChunks := [[0, 0, 0]],
            audioBuffer := [[0, 0, 0]] }, []) :=
  ⟨by decide,
   vad_parity_and_odd_frame_kept.2.1 [0, 0, 0] (by decide),
   by decide, by decide,
   vad_parity_and_odd_frame_kept.2.2 sampleAssistant sampleEnv 0
     sampleSession [0, 0, 0] (by decide) (by decide) (by decide)⟩

end VoicePlatform
